import Mathlib

/-!
# Verification development for the Foto Timeline Challenge game core

Shallow embedding of the game logic found in the two near-duplicate Vue
single-file components (`src/components/PhotoTimeline.vue` and the unnamed
variant).  Stateful script code is embedded as explicit state passing over a
`GameState` record; JavaScript `Date` values are embedded as integers (`Int`)
since the code only ever compares them; the per-second `setInterval` callback
is embedded as a `tick` step function.
-/

namespace FotoTimeline

/-- Embeds the `Level` interface: `requiredPhotos`, `timeLimit`, `points`,
`name`, `description`. -/
structure Level where
  requiredPhotos : Nat
  timeLimit : Nat
  points : Nat
  name : String
  description : String
  deriving Repr, DecidableEq, Inhabited

/-- Embeds the hardcoded `levels` array (identical in both components). -/
def levels : List Level :=
  [ { requiredPhotos := 3, timeLimit := 60, points := 100,
      name := "Zeitreisender Novize",
      description := "Deine erste Zeitreise beginnt!" },
    { requiredPhotos := 4, timeLimit := 50, points := 200,
      name := "Chronologie Entdecker",
      description := "Die Zeit wird knapper!" },
    { requiredPhotos := 5, timeLimit := 45, points := 300,
      name := "Zeit Archäologe",
      description := "Grabe tiefer in der Zeitlinie!" },
    { requiredPhotos := 6, timeLimit := 40, points := 400,
      name := "Zeitlinien Meister",
      description := "Beweise deine Meisterschaft!" },
    { requiredPhotos := 7, timeLimit := 35, points := 500,
      name := "Chronos Champion",
      description := "Die ultimative Herausforderung!" } ]

/-- Embeds the `Photo` interface.  The opaque `file` handle is dropped; `url`
keeps the display reference; `date` embeds the JavaScript `Date` (only ever
compared, so an integer timestamp suffices).  In the source `id` is the fresh
number `Date.now() + Math.random()`; here ids are supplied by the caller or
by a counter threaded through the ingestion pipeline. -/
structure Photo where
  id : Nat
  url : String
  date : Int
  deriving Repr, DecidableEq, Inhabited

/-- Embeds the pure validation loop inside `checkOrder`:
`photos.every((photo, index) => { if (index === 0) return true;
return photo.date >= photos.value[index - 1].date; })`. -/
def checkOrderPure (photos : List Photo) : Bool :=
  (List.range photos.length).all fun index =>
    index == 0 ||
      decide ((photos.getD index default).date ≥ (photos.getD (index - 1) default).date)

/-- The adjacent-pair relation `checkOrder` tests: the later photo's capture
date is at least the earlier one's. -/
def dateLE (a b : Photo) : Prop := a.date ≤ b.date

theorem checkOrderPure_iff_chain (l : List Photo) :
    checkOrderPure l = true ↔ List.Chain' dateLE l := by
  rw [checkOrderPure, List.all_eq_true, List.chain'_iff_get]
  constructor
  · intro h i hi
    have hmem : i + 1 ∈ List.range l.length := List.mem_range.mpr (by omega)
    have hx := h _ hmem
    simp only [beq_iff_eq, Bool.or_eq_true, decide_eq_true_eq, ge_iff_le] at hx
    rcases hx with h0 | hle
    · omega
    · have h1 : i + 1 - 1 = i := by omega
      rw [h1, List.getD_eq_getElem _ _ (show i < l.length by omega),
        List.getD_eq_getElem _ _ (show i + 1 < l.length by omega)] at hle
      simpa [dateLE, List.get_eq_getElem] using hle
  · intro h i hmem
    simp only [Bool.or_eq_true, beq_iff_eq, decide_eq_true_eq, ge_iff_le]
    rcases Nat.eq_zero_or_pos i with h0 | hpos
    · left; exact h0
    · right
      have hi : i < l.length := List.mem_range.mp hmem
      have hx := h (i - 1) (by omega)
      simp only [dateLE, List.get_eq_getElem] at hx
      rw [List.getD_eq_getElem _ _ (show i - 1 < l.length by omega),
        List.getD_eq_getElem _ _ hi]
      have h1 : i - 1 + 1 = i := by omega
      simp only [h1] at hx
      exact hx

/-- C1: `checkOrder` succeeds iff every adjacent pair is non-strictly
ordered by capture date, i.e. iff the capture dates form a non-decreasing
(sorted ascending with ties allowed) sequence.  In particular an all-equal
sequence passes and, for pairwise-distinct dates, success is exactly
"sorted ascending". -/
theorem checkOrder_iff_nondecreasing (photos : List Photo) :
    checkOrderPure photos = true ↔
      (List.Chain' dateLE photos ∧ List.Sorted (· ≤ ·) (photos.map Photo.date)) := by
  rw [checkOrderPure_iff_chain]
  constructor
  · intro h
    refine ⟨h, ?_⟩
    have hmap : List.Chain' (· ≤ ·) (photos.map Photo.date) := by
      rw [List.chain'_map]
      exact h
    exact List.chain'_iff_pairwise.mp hmap
  · intro h
    exact h.1

/-- Embeds the raw input of the ingestion pipeline: one entry of the selected
`FileList`.  `isImage` embeds `file.type.startsWith('image/')`; `exif` embeds
the outcome of `await exifr.parse(file)` — `ExifResult.thrown` when the
parse throws, `ExifResult.parsed none` when it resolves without a
`DateTimeOriginal` field, `ExifResult.parsed (some d)` when it yields
timestamp `d`. -/
inductive ExifResult where
  | thrown
  | parsed (dateTimeOriginal : Option Int)
  deriving Repr, DecidableEq

structure ImgFile where
  name : String
  isImage : Bool
  exif : ExifResult
  deriving Repr, DecidableEq

/-- Embeds `gameMode = ref<'custom' | 'seasons'>`. -/
inductive GameMode where
  | custom
  | seasons
  deriving Repr, DecidableEq

/-- Embeds the component's reactive refs that carry game logic.  `timerActive`
embeds `timerInterval !== null` with a live interval; `gameOvers` counts the
executions of `showGameOver` (the timeout alert), so that "exactly once" can
be stated. -/
structure GameState where
  photos : List Photo
  currentLevel : Nat
  score : Nat
  timeLeft : Nat
  gameStarted : Bool
  timerActive : Bool
  selectedFiles : Option (List ImgFile)
  showLevelComplete : Bool
  levelScore : Nat
  timeBonus : Nat
  gameMode : GameMode
  gameOvers : Nat
  deriving Repr, DecidableEq

/-- Embeds `currentLevelData = computed(() => levels[currentLevel.value])`. -/
def currentLevelData (st : GameState) : Level :=
  levels.getD st.currentLevel default

/-- The initial reactive state (`ref` initial values). -/
def initialState : GameState :=
  { photos := [], currentLevel := 0, score := 0, timeLeft := 0,
    gameStarted := false, timerActive := false, selectedFiles := none,
    showLevelComplete := false, levelScore := 0, timeBonus := 0,
    gameMode := GameMode.custom, gameOvers := 0 }

/-- Embeds `resetLevel`: clears the photo array, cancels any running
interval, zeroes the clock, and leaves the started/complete flags and the
file selection cleared.  (The unnamed variant additionally revokes object
URLs — a resource action with no effect on the modelled state.) -/
def resetLevel (st : GameState) : GameState :=
  { st with
    photos := []
    timerActive := false
    timeLeft := 0
    gameStarted := false
    showLevelComplete := false
    selectedFiles := none }

/-- Embeds `startTimer`: clears any previous interval, sets
`timeLeft = currentLevelData.timeLimit`, and installs the per-second
interval. -/
def startTimer (st : GameState) : GameState :=
  { st with timeLeft := (currentLevelData st).timeLimit, timerActive := true }

/-- Embeds `showGameOver`: shows the timeout alert (counted by `gameOvers`)
and then calls `resetLevel`. -/
def showGameOver (st : GameState) : GameState :=
  resetLevel { st with gameOvers := st.gameOvers + 1 }

/-- Embeds one firing of the `setInterval` callback installed by
`startTimer`: if the interval is still installed, either decrement a positive
clock or clear the interval and run `showGameOver`.  With no live interval
the callback does not fire, so the state is unchanged. -/
def tick (st : GameState) : GameState :=
  if st.timerActive then
    if 0 < st.timeLeft then { st with timeLeft := st.timeLeft - 1 }
    else showGameOver { st with timerActive := false }
  else st

/-- Embeds `checkOrder`'s state transition around the pure validation of
`checkOrderPure`: on success award `timeBonus = Math.floor(timeLeft * 2)`
(`timeLeft` is a whole number of seconds, so the floor is exact), set
`levelScore = points + timeBonus`, add it to `score`, cancel the interval
and show the level-complete overlay; on failure alert and `resetLevel`. -/
def checkOrder (st : GameState) : GameState :=
  if checkOrderPure st.photos then
    let bonus := st.timeLeft * 2
    let lscore := (currentLevelData st).points + bonus
    { st with
      timeBonus := bonus
      levelScore := lscore
      score := st.score + lscore
      timerActive := false
      showLevelComplete := true }
  else
    resetLevel st

/-- Embeds `nextLevel`: below the last index advance one level and reset;
at (or beyond) the last index congratulate, wrap `currentLevel` to 0, zero
`score`, and reset.  In both branches `showLevelComplete` ends `false`.
(`PhotoTimeline.vue` additionally calls `loadPhotosForCurrentLevel()` after
the non-final reset, which returns immediately because `resetLevel` just set
`selectedFiles` to `null`.) -/
def nextLevel (st : GameState) : GameState :=
  if st.currentLevel < levels.length - 1 then
    resetLevel { st with currentLevel := st.currentLevel + 1 }
  else
    resetLevel { st with currentLevel := 0, score := 0 }

theorem checkOrder_of_pure_true (st : GameState)
    (h : checkOrderPure st.photos = true) :
    checkOrder st =
      { st with
        timeBonus := st.timeLeft * 2
        levelScore := (currentLevelData st).points + st.timeLeft * 2
        score := st.score + ((currentLevelData st).points + st.timeLeft * 2)
        timerActive := false
        showLevelComplete := true } := by
  simp [checkOrder, h]

/-- C2: on a successful check, `timeBonus = Math.floor(timeLeft * 2)` (exact
doubling of the remaining whole seconds), `levelScore = points + timeBonus`,
and the cumulative score grows by exactly `levelScore`; with 300 base points
and 20 seconds left this gives bonus 40 and round score 340. -/
theorem checkOrder_success_scoring (st : GameState)
    (h : checkOrderPure st.photos = true) :
    (checkOrder st).timeBonus = st.timeLeft * 2 ∧
    (checkOrder st).levelScore = (currentLevelData st).points + st.timeLeft * 2 ∧
    (checkOrder st).score = st.score + (checkOrder st).levelScore ∧
    ((currentLevelData st).points = 300 → st.timeLeft = 20 →
      (checkOrder st).timeBonus = 40 ∧ (checkOrder st).levelScore = 340) := by
  rw [checkOrder_of_pure_true st h]
  refine ⟨rfl, rfl, rfl, fun hp ht => ?_⟩
  rw [hp, ht]
  exact ⟨rfl, rfl⟩

/-- Witness for C2 at a concrete state: level index 2 has 300 base points;
with 20 seconds left and a correctly ordered store the bonus is 40 and the
round score 340, added to the cumulative score. -/
theorem checkOrder_success_scoring_witness :
    let st : GameState :=
      { photos := [{ id := 1, url := "a", date := 5 }, { id := 2, url := "b", date := 9 }],
        currentLevel := 2, score := 1000, timeLeft := 20, gameStarted := true,
        timerActive := true, selectedFiles := none, showLevelComplete := false,
        levelScore := 0, timeBonus := 0, gameMode := GameMode.custom, gameOvers := 0 }
    (checkOrder st).timeBonus = 40 ∧ (checkOrder st).levelScore = 340 ∧
      (checkOrder st).score = 1340 := by
  intro st
  have h := checkOrder_success_scoring st (by decide)
  refine ⟨(h.2.2.2 (by decide) rfl).1, (h.2.2.2 (by decide) rfl).2, ?_⟩
  rw [h.2.2.1, (h.2.2.2 (by decide) rfl).2]

/-- C6: when the check fails, the cumulative score is unchanged and the
round is fully reset — Ordering Store cleared, timer cancelled, session back
to the not-started state. -/
theorem checkOrder_failure_resets (st : GameState)
    (h : checkOrderPure st.photos = false) :
    (checkOrder st).score = st.score ∧
    (checkOrder st).photos = [] ∧
    (checkOrder st).timerActive = false ∧
    (checkOrder st).gameStarted = false ∧
    (checkOrder st).timeLeft = 0 := by
  simp only [checkOrder, h, Bool.false_eq_true, if_neg, resetLevel]
  exact ⟨rfl, rfl, rfl, rfl, rfl⟩

/-- Witness for C6: a two-photo store with strictly decreasing dates fails
the check; score is kept, everything else is reset. -/
theorem checkOrder_failure_resets_witness :
    let st : GameState :=
      { photos := [{ id := 1, url := "a", date := 9 }, { id := 2, url := "b", date := 5 }],
        currentLevel := 0, score := 777, timeLeft := 12, gameStarted := true,
        timerActive := true, selectedFiles := none, showLevelComplete := false,
        levelScore := 0, timeBonus := 0, gameMode := GameMode.custom, gameOvers := 0 }
    (checkOrder st).score = 777 ∧ (checkOrder st).photos = [] ∧
      (checkOrder st).timerActive = false ∧ (checkOrder st).gameStarted = false := by
  intro st
  have h := checkOrder_failure_resets st (by decide)
  exact ⟨h.1, h.2.1, h.2.2.1, h.2.2.2.1⟩

theorem tick_of_inactive (st : GameState) (h : st.timerActive = false) :
    tick st = st := by
  simp [tick, h]

theorem tick_iterate_active (st : GameState) (h : st.timerActive = true)
    (n : Nat) (hn : n ≤ st.timeLeft) :
    tick^[n] st = { st with timeLeft := st.timeLeft - n } := by
  induction n with
  | zero => simp
  | succ m ih =>
    rw [Function.iterate_succ_apply', ih (by omega)]
    have hpos : 0 < st.timeLeft - m := by omega
    simp [tick, h, hpos, Nat.sub_sub]

theorem tick_timeout_step (st : GameState) (h : st.timerActive = true)
    (h0 : st.timeLeft = 0) :
    tick st = showGameOver { st with timerActive := false } := by
  simp [tick, h, h0]

/-- C5: a timer started with `T` seconds loses one second per interval tick,
reads 0 after exactly `T` ticks with no game-over yet, and every schedule of
at least `T + 1` ticks produces exactly one game-over (the tick that finds
the clock at 0 clears the interval, so later ticks cannot re-trigger). -/
theorem timer_times_out_exactly_once (st : GameState) (T : Nat)
    (hA : st.timerActive = true) (hT : st.timeLeft = T) :
    (∀ n, n ≤ T → (tick^[n] st).timeLeft = T - n) ∧
    (tick^[T] st).timeLeft = 0 ∧
    (tick^[T] st).gameOvers = st.gameOvers ∧
    (∀ k, (tick^[T + 1 + k] st).gameOvers = st.gameOvers + 1) := by
  subst hT
  have hfin := tick_iterate_active st hA st.timeLeft le_rfl
  refine ⟨?_, ?_, ?_, ?_⟩
  · intro n hn
    rw [tick_iterate_active st hA n hn]
  · rw [hfin]; simp
  · rw [hfin]
  · intro k
    have e1 : st.timeLeft + 1 + k = k + (1 + st.timeLeft) := by omega
    rw [e1, Function.iterate_add_apply, Function.iterate_add_apply,
      Function.iterate_one, hfin]
    have hstep : tick { st with timeLeft := st.timeLeft - st.timeLeft } =
        showGameOver { st with timeLeft := st.timeLeft - st.timeLeft, timerActive := false } :=
      tick_timeout_step _ hA (by simp)
    rw [hstep]
    have hdead : (showGameOver { st with timeLeft := st.timeLeft - st.timeLeft, timerActive := false }).timerActive = false := by
      simp [showGameOver, resetLevel]
    rw [Function.iterate_fixed (tick_of_inactive _ hdead)]
    simp [showGameOver, resetLevel]

/-- Witness for C5 at the spec's example: `startTimer` from the fresh state
uses level 0's 60-second limit; after 60 ticks the clock is 0 and no timeout
has fired, after 61 ticks exactly one has. -/
theorem timer_times_out_exactly_once_witness :
    (tick^[60] (startTimer initialState)).timeLeft = 0 ∧
    (tick^[60] (startTimer initialState)).gameOvers = 0 ∧
    (tick^[61] (startTimer initialState)).gameOvers = 1 := by
  have h := timer_times_out_exactly_once (startTimer initialState) 60 (by decide) (by decide)
  exact ⟨h.2.1, h.2.2.1, h.2.2.2 0⟩

/-- C9: advancing from a non-final level increments the level index and keeps
the cumulative score; advancing from the final catalog index wraps the index
to 0, zeroes the score, and leaves an idle round (store cleared, timer off,
not started). -/
theorem nextLevel_advances_or_wraps (st : GameState) :
    (st.currentLevel < levels.length - 1 →
      (nextLevel st).currentLevel = st.currentLevel + 1 ∧
      (nextLevel st).score = st.score ∧
      (nextLevel st).gameStarted = false ∧
      (nextLevel st).photos = [] ∧
      (nextLevel st).timerActive = false) ∧
    (st.currentLevel = levels.length - 1 →
      (nextLevel st).currentLevel = 0 ∧
      (nextLevel st).score = 0 ∧
      (nextLevel st).gameStarted = false ∧
      (nextLevel st).photos = [] ∧
      (nextLevel st).timerActive = false) := by
  constructor
  · intro h
    simp [nextLevel, h, resetLevel]
  · intro h
    simp [nextLevel, h, resetLevel]

/-- Witness for C9: from level index 1 advancing reaches index 2 with the
score kept; from the final index 4 advancing wraps to index 0 with score 0. -/
theorem nextLevel_advances_or_wraps_witness :
    ((nextLevel { initialState with currentLevel := 1, score := 250 }).currentLevel = 2 ∧
      (nextLevel { initialState with currentLevel := 1, score := 250 }).score = 250) ∧
    ((nextLevel { initialState with currentLevel := 4, score := 990 }).currentLevel = 0 ∧
      (nextLevel { initialState with currentLevel := 4, score := 990 }).score = 0) := by
  constructor
  · have h := (nextLevel_advances_or_wraps
      { initialState with currentLevel := 1, score := 250 }).1 (by decide)
    exact ⟨h.1, h.2.1⟩
  · have h := (nextLevel_advances_or_wraps
      { initialState with currentLevel := 4, score := 990 }).2 (by decide)
    exact ⟨h.1, h.2.1⟩

/-- Embeds the full drag reordering surface, `<draggable v-model="photos">`:
the drag component writes the emitted sequence straight into the `photos`
ref.  No handler validates it — there is no id-multiset check anywhere in
either component. -/
def replaceOrder (st : GameState) (newOrder : List Photo) : GameState :=
  { st with photos := newOrder }

/-- C4 counterexample: the claim says a drag result that is not a permutation
of the current contents (here: one that duplicates an id) is rejected with
the store unchanged; in the code the v-model assignment applies it, so the
store becomes the duplicated sequence and does change. -/
theorem replaceOrder_accepts_nonpermutation_counterexample :
    (replaceOrder
        { initialState with
          photos := [{ id := 1, url := "a", date := 3 }, { id := 2, url := "b", date := 7 }] }
        [{ id := 1, url := "a", date := 3 }, { id := 1, url := "a", date := 3 }]).photos =
      [{ id := 1, url := "a", date := 3 }, { id := 1, url := "a", date := 3 }] ∧
    ¬ List.Perm
        ([{ id := 1, url := "a", date := 3 }, { id := 1, url := "a", date := 3 }].map Photo.id)
        ([{ id := 1, url := "a", date := 3 }, { id := 2, url := "b", date := 7 }].map Photo.id) ∧
    (replaceOrder
        { initialState with
          photos := [{ id := 1, url := "a", date := 3 }, { id := 2, url := "b", date := 7 }] }
        [{ id := 1, url := "a", date := 3 }, { id := 1, url := "a", date := 3 }]).photos ≠
      [{ id := 1, url := "a", date := 3 }, { id := 2, url := "b", date := 7 }] := by
  refine ⟨rfl, by decide, by decide⟩

/-- C4 amended: `replaceOrder` (the draggable v-model write) performs no
permutation check; any emitted sequence — in particular one whose id
multiset differs from the current contents — is installed as the new store
contents, which therefore change. -/
theorem replaceOrder_unvalidated (st : GameState) (newOrder : List Photo)
    (h : ¬ List.Perm (newOrder.map Photo.id) (st.photos.map Photo.id)) :
    (replaceOrder st newOrder).photos = newOrder ∧
    (replaceOrder st newOrder).photos ≠ st.photos := by
  refine ⟨rfl, ?_⟩
  intro heq
  apply h
  have : newOrder = st.photos := heq
  rw [this]

/-- Witness for C4 amended at the counterexample's input. -/
theorem replaceOrder_unvalidated_witness :
    (replaceOrder
        { initialState with
          photos := [{ id := 1, url := "a", date := 3 }, { id := 2, url := "b", date := 7 }] }
        [{ id := 1, url := "a", date := 3 }, { id := 1, url := "a", date := 3 }]).photos =
      [{ id := 1, url := "a", date := 3 }, { id := 1, url := "a", date := 3 }] ∧
    (replaceOrder
        { initialState with
          photos := [{ id := 1, url := "a", date := 3 }, { id := 2, url := "b", date := 7 }] }
        [{ id := 1, url := "a", date := 3 }, { id := 1, url := "a", date := 3 }]).photos ≠
      [{ id := 1, url := "a", date := 3 }, { id := 2, url := "b", date := 7 }] :=
  replaceOrder_unvalidated
    { initialState with
      photos := [{ id := 1, url := "a", date := 3 }, { id := 2, url := "b", date := 7 }] }
    [{ id := 1, url := "a", date := 3 }, { id := 1, url := "a", date := 3 }]
    (by decide)

/-- Embeds one entry of the `seasonImages` array of the unnamed variant.
Dates are the embedded timestamps of the literal `new Date('2023-..-..')`
values, written as order-preserving `yyyymmdd` integers. -/
structure SeasonImage where
  url : String
  season : String
  date : Int
  deriving Repr, DecidableEq

/-- Embeds the `seasonImages` demo dataset (unnamed variant). -/
def seasonImages : List SeasonImage :=
  [ { url := "https://images.unsplash.com/photo-1418985991508-e47386d96a71",
      season := "Winter", date := 20231221 },
    { url := "https://images.unsplash.com/photo-1486944670663-93fc84a4e1fa",
      season := "Frühling", date := 20230321 },
    { url := "https://images.unsplash.com/photo-1473496169904-658ba7c44d8a",
      season := "Sommer", date := 20230621 },
    { url := "https://images.unsplash.com/photo-1507371341959-585a53d43f53",
      season := "Herbst", date := 20230921 } ]

/-- Embeds `startSeasonMode` (unnamed variant): installs all four preset
photos (`seasonImages.map((img, index) => ({ id: index, ... }))`), marks the
game started and starts the timer — with no comparison against
`currentLevelData.requiredPhotos`. -/
def startSeasonMode (st : GameState) : GameState :=
  startTimer
    { st with
      gameMode := GameMode.seasons
      photos := seasonImages.enum.map fun p =>
        { id := p.1, url := p.2.url, date := p.2.date }
      gameStarted := true }

/-- Embeds the shared tail of `loadPhotosForCurrentLevel` /
`handleFileSelect`: the produced photos are installed and the round starts
(`gameStarted = true; startTimer()`) exactly when
`photos.value.length === currentLevelData.value.requiredPhotos &&
!gameStarted.value`. -/
def finishCustomIngestion (st : GameState) (newPhotos : List Photo) : GameState :=
  let st' := { st with photos := newPhotos }
  if newPhotos.length == (currentLevelData st').requiredPhotos && !st'.gameStarted then
    startTimer { st' with gameStarted := true }
  else st'

/-- C3 counterexample: from the fresh state (level 0 requires 3 photos),
`startSeasonMode` starts a round with the 4 preset photos — the session
becomes playing with a photo count different from `requiredPhotoCount`. -/
theorem seasonMode_starts_with_wrong_count_counterexample :
    (startSeasonMode initialState).gameStarted = true ∧
    (startSeasonMode initialState).timerActive = true ∧
    (startSeasonMode initialState).photos.length = 4 ∧
    (currentLevelData (startSeasonMode initialState)).requiredPhotos = 3 := by
  refine ⟨rfl, rfl, rfl, rfl⟩

/-- C3 amended: in the custom (file) modes the round starts exactly when the
number of produced photos equals the active level's `requiredPhotos` (unless
a round is already running), but preset season mode starts unconditionally
with its fixed 4 photos, regardless of `requiredPhotos`. -/
theorem ingestion_start_condition (st : GameState) (ps : List Photo) :
    ((finishCustomIngestion st ps).gameStarted = true ↔
      (st.gameStarted = true ∨ ps.length = (currentLevelData st).requiredPhotos)) ∧
    (startSeasonMode st).gameStarted = true ∧
    (startSeasonMode st).photos.length = 4 := by
  refine ⟨?_, rfl, rfl⟩
  by_cases hg : st.gameStarted = true <;>
    by_cases hl : ps.length = (currentLevelData st).requiredPhotos <;>
      simp_all [finishCustomIngestion, currentLevelData, startTimer]

/-- Embeds the candidate selection of `loadPhotosForCurrentLevel`
(PhotoTimeline.vue): `files.filter(f => f.type.startsWith('image/'))
.sort(() => Math.random() - 0.5)` yields some permutation `shuffled` of the
image-typed files, and `.slice(0, requiredPhotos)` keeps its first
`required` entries. -/
def selectLevelFiles (shuffled : List ImgFile) (required : Nat) : List ImgFile :=
  shuffled.take required

/-- Embeds the candidate selection of `handleFileSelect` (unnamed variant):
`Array.from(input.files).slice(0, currentLevelData.value.requiredPhotos)` —
a plain leading slice of the supplied batch, with no image-type filter and
no shuffle. -/
def selectFilesVariant (files : List ImgFile) (required : Nat) : List ImgFile :=
  files.take required

/-- C7 counterexample: with a batch whose first entry is not image-typed and
`requiredPhotoCount = 2`, the unnamed variant's pipeline selects the first
two supplied files — including the non-image — while the claim's candidate
set (the first two image-typed files, in supplied order) is different. -/
theorem selection_not_image_filtered_counterexample :
    selectFilesVariant
        [{ name := "notes.txt", isImage := false, exif := ExifResult.parsed none },
         { name := "a.jpg", isImage := true, exif := ExifResult.parsed none },
         { name := "b.jpg", isImage := true, exif := ExifResult.parsed none }] 2 =
      [{ name := "notes.txt", isImage := false, exif := ExifResult.parsed none },
       { name := "a.jpg", isImage := true, exif := ExifResult.parsed none }] ∧
    ((([{ name := "notes.txt", isImage := false, exif := ExifResult.parsed none },
       { name := "a.jpg", isImage := true, exif := ExifResult.parsed none },
       { name := "b.jpg", isImage := true, exif := ExifResult.parsed none }] : List ImgFile).filter
        fun f => f.isImage).take 2 =
      [{ name := "a.jpg", isImage := true, exif := ExifResult.parsed none },
       { name := "b.jpg", isImage := true, exif := ExifResult.parsed none }]) ∧
    selectFilesVariant
        [{ name := "notes.txt", isImage := false, exif := ExifResult.parsed none },
         { name := "a.jpg", isImage := true, exif := ExifResult.parsed none },
         { name := "b.jpg", isImage := true, exif := ExifResult.parsed none }] 2 ≠
      ((([{ name := "notes.txt", isImage := false, exif := ExifResult.parsed none },
         { name := "a.jpg", isImage := true, exif := ExifResult.parsed none },
         { name := "b.jpg", isImage := true, exif := ExifResult.parsed none }] : List ImgFile).filter
          fun f => f.isImage).take 2) := by
  refine ⟨rfl, rfl, by decide⟩

/-- C7 amended: the candidate set is a leading slice, but not of the list
the claim names — the unnamed variant slices the raw supplied batch (no
image-type filter), and `PhotoTimeline.vue` slices a random permutation of
the image-typed files (not the supplied order).  Both slices keep
`min required length` entries of the list they cut. -/
theorem selection_is_plain_slice (files shuffled : List ImgFile) (n : Nat) :
    (selectFilesVariant files n ++ files.drop n = files ∧
      (selectFilesVariant files n).length = min n files.length) ∧
    (selectLevelFiles shuffled n ++ shuffled.drop n = shuffled ∧
      (selectLevelFiles shuffled n).length = min n shuffled.length) := by
  refine ⟨⟨?_, ?_⟩, ?_, ?_⟩ <;>
    simp [selectFilesVariant, selectLevelFiles, List.take_append_drop, List.length_take]

/-- Embeds `optimizeImage` (PhotoTimeline.vue) and the per-file body of
`handleFileSelect` (unnamed variant): `const exifData = await
exifr.parse(file)` is awaited first, so a thrown parse rejects the whole
per-file step (`none`); otherwise the capture date is
`exifData?.DateTimeOriginal || new Date()` — the wall-clock `now` when the
field is absent.  The canvas preview step resolves unconditionally
(`img.onload` only) and does not affect the date. -/
def optimizeImage (now : Int) (f : ImgFile) : Option Int :=
  match f.exif with
  | ExifResult.thrown => none
  | ExifResult.parsed d => some (d.getD now)

/-- Embeds the per-file try/catch of both pipelines: a rejected per-file
step is logged and skipped (`return null` / `continue`), successes are
appended in order.  Ids are drawn from a counter standing in for the fresh
`Date.now() + Math.random()` values; `url` stands in for the produced
display reference. -/
def processFiles (now : Int) (nextId : Nat) : List ImgFile → List Photo
  | [] => []
  | f :: fs =>
    match optimizeImage now f with
    | some d => { id := nextId, url := f.name, date := d } :: processFiles now (nextId + 1) fs
    | none => processFiles now nextId fs

/-- Embeds the `BATCH_SIZE = 2` loop of `loadPhotosForCurrentLevel`: files
are processed two at a time (`levelFiles.slice(i, i + 2)` with
`Promise.all`), each batch's successes appended before the next batch. -/
def processBatches (now : Int) (nextId : Nat) : List ImgFile → List Photo
  | [] => []
  | [f] => processFiles now nextId [f]
  | f :: g :: fs =>
    let batch := processFiles now nextId [f, g]
    batch ++ processBatches now (nextId + batch.length) fs

theorem processFiles_append (now : Int) :
    ∀ (i : Nat) (l1 l2 : List ImgFile),
      processFiles now i (l1 ++ l2) =
        processFiles now i l1 ++
          processFiles now (i + (processFiles now i l1).length) l2
  | _, [], _ => by simp [processFiles]
  | i, f :: l1, l2 => by
    cases h : optimizeImage now f with
    | some d =>
      have ih := processFiles_append now (i + 1) l1 l2
      have harith : i + ((processFiles now (i + 1) l1).length + 1) =
          i + 1 + (processFiles now (i + 1) l1).length := by omega
      simp [processFiles, h, ih, harith]
    | none =>
      have ih := processFiles_append now i l1 l2
      simp [processFiles, h, ih]

/-- The externally observable pipeline result is independent of the
batching: the two-at-a-time loop produces the same photo list as a single
sequential pass. -/
theorem processBatches_eq (now : Int) :
    ∀ (i : Nat) (fs : List ImgFile),
      processBatches now i fs = processFiles now i fs
  | _, [] => rfl
  | _, [_] => rfl
  | i, f :: g :: fs => by
    show processFiles now i [f, g] ++
        processBatches now (i + (processFiles now i [f, g]).length) fs = _
    rw [processBatches_eq now _ fs, ← processFiles_append]
    rfl

/-- C8 counterexample: a file whose EXIF parse throws is dropped by the
per-file catch — the pipeline result is empty, not a photo carrying the
wall-clock fallback date, contradicting "a metadata-extraction failure never
causes the photo to be dropped". -/
theorem exif_throw_drops_photo_counterexample :
    processBatches 1000 0 [{ name := "bad.jpg", isImage := true, exif := ExifResult.thrown }] = [] ∧
    processBatches 1000 0 [{ name := "bad.jpg", isImage := true, exif := ExifResult.thrown }] ≠
      [{ id := 0, url := "bad.jpg", date := 1000 }] := by
  refine ⟨rfl, by decide⟩

/-- C8 amended: when EXIF extraction resolves without a timestamp the photo
keeps flowing with the wall-clock fallback date and the rest of the batch is
processed unchanged; a thrown extraction instead drops only that photo (the
per-file catch), never aborting the pipeline for the remaining files. -/
theorem metadata_fallback_keeps_photo (now : Int) (i : Nat) (f : ImgFile)
    (fs : List ImgFile) (h : f.exif = ExifResult.parsed none) :
    processBatches now i (f :: fs) =
      { id := i, url := f.name, date := now } :: processBatches now (i + 1) fs := by
  rw [processBatches_eq, processBatches_eq]
  simp [processFiles, optimizeImage, h]

/-- Witness for C8 amended: a timestamp-less photo is kept with the
wall-clock date 500 and the following file is still processed. -/
theorem metadata_fallback_keeps_photo_witness :
    processBatches 500 0
        [{ name := "x.jpg", isImage := true, exif := ExifResult.parsed none },
         { name := "y.jpg", isImage := true, exif := ExifResult.parsed (some 7) }] =
      { id := 0, url := "x.jpg", date := 500 } ::
        processBatches 500 1 [{ name := "y.jpg", isImage := true, exif := ExifResult.parsed (some 7) }] :=
  metadata_fallback_keeps_photo 500 0
    { name := "x.jpg", isImage := true, exif := ExifResult.parsed none }
    [{ name := "y.jpg", isImage := true, exif := ExifResult.parsed (some 7) }] rfl

/-- Embeds the check-button guard of PhotoTimeline.vue:
`v-if="photos.length === currentLevelData.requiredPhotos"`. -/
def checkButtonVisible (st : GameState) : Bool :=
  st.photos.length == (currentLevelData st).requiredPhotos

/-- Embeds the check-button guard of the unnamed variant:
`v-if="photos.length > 0"`. -/
def checkButtonVisibleVariant (st : GameState) : Bool :=
  decide (0 < st.photos.length)

/-- C10: the adjacent-pair test is vacuous on an empty or single-photo
store, so such a check takes the success path and awards
`points + timeLeft * 2`; in the unnamed variant the check button is offered
for any non-empty store, even one below `requiredPhotos`. -/
theorem small_store_check_succeeds :
    checkOrderPure [] = true ∧
    (∀ p : Photo, checkOrderPure [p] = true) ∧
    (∀ st : GameState, st.photos.length ≤ 1 →
      (checkOrder st).score =
        st.score + ((currentLevelData st).points + st.timeLeft * 2) ∧
      (checkOrder st).showLevelComplete = true) ∧
    (∀ st : GameState, st.photos ≠ [] → checkButtonVisibleVariant st = true) := by
  have hsmall : ∀ l : List Photo, l.length ≤ 1 → checkOrderPure l = true := by
    intro l hl
    match l, hl with
    | [], _ => rfl
    | [p], _ => rfl
  refine ⟨rfl, fun p => rfl, fun st hst => ?_, fun st hst => ?_⟩
  · rw [checkOrder_of_pure_true st (hsmall st.photos hst)]
    exact ⟨rfl, rfl⟩
  · simp [checkButtonVisibleVariant, List.length_pos, hst]

/-- Witness for C10: a one-photo store (below level 0's requirement of 3)
passes the check and scores `100 + 2 * 20 = 140`, and keeps the variant's
check button visible. -/
theorem small_store_check_succeeds_witness :
    (checkOrder
        { initialState with
          photos := [{ id := 5, url := "p", date := 42 }], timeLeft := 20 }).score = 140 ∧
    checkButtonVisibleVariant
        { initialState with
          photos := [{ id := 5, url := "p", date := 42 }], timeLeft := 20 } = true := by
  constructor
  · have h := (small_store_check_succeeds.2.2.1
      { initialState with
        photos := [{ id := 5, url := "p", date := 42 }], timeLeft := 20 } (by decide)).1
    rw [h]
    decide
  · exact small_store_check_succeeds.2.2.2
      { initialState with
        photos := [{ id := 5, url := "p", date := 42 }], timeLeft := 20 } (by decide)

end FotoTimeline
